import Mathlib

/-!
Verification development for the `python-spark-streaming` repository.

The repository consists of a single Jupyter notebook,
`2_basics/.ipynb_checkpoints/Output Operations on DStreams-checkpoint.ipynb`.
We embed the notebook's cell structure (cell types, execution counts,
outputs, and source lines) verbatim from the JSON file, and we embed the
semantics of the Scala `SaveTweets` example's `foreachRDD` callback as a
Lean function.  Operations of the external streaming framework that the
notebook documents but does not implement (`pprint`, `saveAsTextFiles`,
`foreachRDD` registration) are modelled from the spec's words, and are
clearly marked as such.

Braces and ASCII apostrophes occurring in the notebook's text are written
with the escapes \x7b, \x7d and \x27 inside the string literals below; the
strings denote exactly the characters of the source file.
-/

namespace SparkStreamingNotebook

/-- Cell of a Jupyter notebook (nbformat 4): a cell is a markdown cell, a
code cell (with an optional execution count and a list of outputs), or a
raw cell.  The source is the list of source lines exactly as stored in the
notebook JSON. -/
inductive Cell where
  | markdown (source : List String)
  | code (executionCount : Option Nat) (outputs : List String) (source : List String)
  | raw (source : List String)
deriving DecidableEq

/-- Source lines of a cell. -/
def Cell.source : Cell → List String
  | .markdown s => s
  | .code _ _ s => s
  | .raw s => s

/-- Whether a cell is a code cell. -/
def Cell.isCode : Cell → Bool
  | .code _ _ _ => true
  | _ => false

/-- Whether a cell is a markdown cell. -/
def Cell.isMarkdown : Cell → Bool
  | .markdown _ => true
  | _ => false

/-- Execution count of a cell (`none` for non-code cells, matching the
absence of the field in the JSON). -/
def Cell.executionCount : Cell → Option Nat
  | .code n _ _ => n
  | _ => none

/-- Outputs of a cell (`[]` for non-code cells, matching the absence of
the field in the JSON). -/
def Cell.outputs : Cell → List String
  | .code _ o _ => o
  | _ => []

/-- Cell 0 of the notebook: the title. -/
def cell0 : Cell := .markdown ["# Output Operations on DStreams"]

/-- Cell 1 of the notebook: the table of output operations. -/
def cell1 : Cell := .markdown
  [ "Output operations allow DStream’s data to be pushed out to external systems like a database or a file systems. Since the output operations actually allow the transformed data to be consumed by external systems, they trigger the actual execution of all the DStream transformations (similar to actions for RDDs). Currently, the following output operations are defined:\n"
  , "\n"
  , "| Output Operation        | Meaning           |\n"
  , "|-------------:|:------------- |\n"
  , "| **pprint**()      | Prints the first ten elements of every batch of data in a DStream on the driver node running the streaming application. This is useful for development and debugging. |\n"
  , "| **saveAsTextFiles**(prefix, [suffix])     | Save this DStream\x27s contents as text files. The file name at each batch interval is generated based on prefix and suffix: \"prefix-TIME_IN_MS[.suffix]\". |\n"
  , "| **saveAsObjectFiles**(prefix, [suffix]) | Save this DStream\x27s contents as SequenceFiles of serialized Java objects. The file name at each batch interval is generated based on prefix and suffix: \"prefix-TIME_IN_MS[.suffix]\". This is not available in the Python API. |\n"
  , "| **saveAsHadoopFiles**(prefix, [suffix])      | Save this DStream\x27s contents as Hadoop files. The file name at each batch interval is generated based on prefix and suffix: \"prefix-TIME_IN_MS[.suffix]\". This is not available in the Python API. |\n"
  , "| **foreachRDD**(func) | The most generic output operator that applies a function, func, to each RDD generated from the stream. This function should push the data in each RDD to an external system, such as saving the RDD to files, or writing it over the network to a database. Note that the function func is executed in the driver process running the streaming application, and will usually have RDD actions in it that will force the computation of the streaming RDDs. |\n"
  , "\n"
  ]

/-- Cell 2 of the notebook: the bullet list of output operations. -/
def cell2 : Cell := .markdown
  [ "Different output operation\n"
  , "* Print\n"
  , "* saveAsTextFiles\n"
  , "* saveAsObjectFiles (not available in Python)\n"
  , "* saveAsHadoopFiles (not available in Python)\n"
  , "* foreachRDD\n"
  , "\n"
  , "DEMO: Demo how to save tweets to files\n"
  , "* Example: https://drive.google.com/open?id=0Bym8DZ5hyGifaXgwWFQxdVQ4UzA\n"
  , "* use foreachRDD and saveAsTextFiles\n"
  ]

/-- Cell 3 of the notebook: the embedded Scala `SaveTweets` example. -/
def cell3 : Cell := .markdown
  [ "Scala Example\n"
  , "```scala\n"
  , "package com.sundogsoftware.sparkstreaming\n"
  , "\n"
  , "import org.apache.spark._\n"
  , "import org.apache.spark.SparkContext._\n"
  , "import org.apache.spark.streaming._\n"
  , "import org.apache.spark.streaming.twitter._\n"
  , "import org.apache.spark.streaming.StreamingContext._\n"
  , "import Utilities._\n"
  , "\n"
  , "/** Listens to a stream of tweets and saves them to disk. */\n"
  , "object SaveTweets \x7b\n"
  , "  \n"
  , "  /** Our main function where the action happens */\n"
  , "  def main(args: Array[String]) \x7b\n"
  , "\n"
  , "    // Configure Twitter credentials using twitter.txt\n"
  , "    setupTwitter()\n"
  , "    \n"
  , "    // Set up a Spark streaming context named \"SaveTweets\" that runs locally using\n"
  , "    // all CPU cores and one-second batches of data\n"
  , "    val ssc = new StreamingContext(\"local[*]\", \"SaveTweets\", Seconds(1))\n"
  , "    \n"
  , "    // Get rid of log spam (should be called after the context is set up)\n"
  , "    setupLogging()\n"
  , "\n"
  , "    // Create a DStream from Twitter using our streaming context\n"
  , "    val tweets = TwitterUtils.createStream(ssc, None)\n"
  , "    \n"
  , "    // Now extract the text of each status update into RDD\x27s using map()\n"
  , "    val statuses = tweets.map(status => status.getText())\n"
  , "    \n"
  , "    // Here\x27s one way to just dump every partition of every stream to individual files:\n"
  , "    //statuses.saveAsTextFiles(\"Tweets\", \"txt\")\n"
  , "    \n"
  , "    // But let\x27s do it the hard way to get a bit more control.\n"
  , "    \n"
  , "    // Keep count of how many Tweets we\x27ve received so we can stop automatically\n"
  , "    // (and not fill up your disk!)\n"
  , "    var totalTweets:Long = 0\n"
  , "        \n"
  , "    statuses.foreachRDD((rdd, time) => \x7b\n"
  , "      // Don\x27t bother with empty batches\n"
  , "      if (rdd.count() > 0) \x7b\n"
  , "        // Combine each partition\x27s results into a single RDD:\n"
  , "        val repartitionedRDD = rdd.repartition(1).cache()\n"
  , "        // And print out a directory with the results.\n"
  , "        repartitionedRDD.saveAsTextFile(\"Tweets_\" + time.milliseconds.toString)\n"
  , "        // Stop once we\x27ve collected 1000 tweets.\n"
  , "        totalTweets += repartitionedRDD.count()\n"
  , "        println(\"Tweet count: \" + totalTweets)\n"
  , "        if (totalTweets > 1000) \x7b\n"
  , "          System.exit(0)\n"
  , "        \x7d\n"
  , "      \x7d\n"
  , "    \x7d)\n"
  , "    \n"
  , "    // You can also write results into a database of your choosing, but we\x27ll do that later.\n"
  , "    \n"
  , "    // Set a checkpoint directory, and kick it all off\n"
  , "    ssc.checkpoint(\"C:/checkpoint/\")\n"
  , "    ssc.start()\n"
  , "    ssc.awaitTermination()\n"
  , "  \x7d  \n"
  , "\x7d\n"
  , "```\n"
  ]

/-- Cell 4 of the notebook: the demo heading. -/
def cell4 : Cell := .markdown
  [ "### Demo: How to save tweets to files\n"
  , "use foreachRDD and saveAsTextFiles"
  ]

/-- Cell 5 of the notebook: the sole code cell; its `execution_count` is
`null`, its `outputs` list is empty and its `source` list is empty. -/
def cell5 : Cell := .code none [] []

/-- Cell 6 of the notebook: the references. -/
def cell6 : Cell := .markdown
  [ "## References\n"
  , "1. https://drive.google.com/open?id=0Bym8DZ5hyGifaXgwWFQxdVQ4UzA\n"
  , "2. https://spark.apache.org/docs/latest/streaming-programming-guide.html#output-operations-on-dstreams"
  ]

/-- Cell 7 of the notebook: a markdown cell holding a single space. -/
def cell7 : Cell := .markdown [" "]

/-- The notebook `Output Operations on DStreams-checkpoint.ipynb`: its
cells, in order. -/
def outputOpsNotebook : List Cell :=
  [cell0, cell1, cell2, cell3, cell4, cell5, cell6, cell7]

/-- Whether `pat` occurs at the start of `l` (character lists). -/
def startsList : List Char → List Char → Bool
  | [], _ => true
  | _ :: _, [] => false
  | a :: as, b :: bs => a == b && startsList as bs

/-- Whether `pat` occurs as a contiguous substring of `l` (character lists). -/
def containsSub (pat : List Char) : List Char → Bool
  | [] => pat.isEmpty
  | c :: rest => startsList pat (c :: rest) || containsSub pat rest

/-- Whether the string `pat` occurs as a substring of some source line of
the cell. -/
def Cell.mentions (c : Cell) (pat : String) : Bool :=
  c.source.any (fun l => containsSub pat.data l.data)

/-- Whether a source line opens or closes a fenced code block in markdown,
i.e. starts with three backticks. -/
def isFenceLine (l : String) : Bool :=
  startsList "```".data l.data

/-- Whether a cell holds a fenced code fragment. -/
def Cell.hasCodeFragment (c : Cell) : Bool :=
  c.source.any isFenceLine

/-- Scala error-handling keywords: a cell containing none of these as a
substring contains no try/catch/finally/throw construct. -/
def errorHandlingKeywords : List String :=
  ["try", "catch", "finally", "throw"]

/-- Observable side effects performed by the `SaveTweets` example's
per-batch callback. -/
inductive Effect where
  | saveAsTextFile (path : String) (contents : List String)
  | println (msg : String)
  | systemExit (code : Nat)
deriving DecidableEq

/-- Semantics of the `foreachRDD` callback of the `SaveTweets` example
(notebook cell 3), translated from the Scala source:

```
(rdd, time) => {
  if (rdd.count() > 0) {
    val repartitionedRDD = rdd.repartition(1).cache()
    repartitionedRDD.saveAsTextFile("Tweets_" + time.milliseconds.toString)
    totalTweets += repartitionedRDD.count()
    println("Tweet count: " + totalTweets)
    if (totalTweets > 1000) { System.exit(0) }
  }
}
```

The RDD of a batch is modelled as the list of its records (tweet texts);
`rdd.count()` is its length, and `rdd.repartition(1).cache()` preserves
the records.  The result is the new value of `totalTweets`, the list of
effects performed, and whether `System.exit(0)` was reached. -/
def saveTweetsBody (totalTweets : Int) (rdd : List String) (timeMs : Nat) :
    Int × List Effect × Bool :=
  if rdd.length > 0 then
    let repartitionedRDD := rdd
    let save := Effect.saveAsTextFile ("Tweets_" ++ toString timeMs) repartitionedRDD
    let totalTweets1 := totalTweets + (repartitionedRDD.length : Int)
    let msg := Effect.println ("Tweet count: " ++ toString totalTweets1)
    if totalTweets1 > 1000 then
      (totalTweets1, [save, msg, Effect.systemExit 0], true)
    else
      (totalTweets1, [save, msg], false)
  else
    (totalTweets, [], false)

/-- Values taken by `totalTweets` after each invocation of the callback on
a sequence of batches (each batch paired with its time in milliseconds),
stopping after an invocation that reaches `System.exit`. -/
def totalsTrace : Int → List (List String × Nat) → List Int
  | _, [] => []
  | totalTweets, (rdd, t) :: rest =>
    let step := saveTweetsBody totalTweets rdd t
    step.1 :: (if step.2.2 then [] else totalsTrace step.1 rest)

/-- Final `totalTweets` value and whether the program exited, after running
the callback over a sequence of batches starting from a given total. -/
def runBatches : Int → List (List String × Nat) → Int × Bool
  | totalTweets, [] => (totalTweets, false)
  | totalTweets, (rdd, t) :: rest =>
    let step := saveTweetsBody totalTweets rdd t
    if step.2.2 then (step.1, true) else runBatches step.1 rest

/-- Node of the cluster on which an action runs. -/
inductive NodeLoc where
  | driver
  | worker
deriving DecidableEq

/-- Modelled from the spec: the external framework's `pprint()` output
operation is not implemented in this repository; per the notebook's table
it "prints the first ten elements of every batch of data in a DStream on
the driver node running the streaming application".  A DStream is modelled
as the list of its batches; for each batch the operation produces, on the
driver node, the list of elements printed. -/
def pprintOp (stream : List (List String)) : List (NodeLoc × List String) :=
  stream.map (fun batch => (NodeLoc.driver, batch.take 10))

/-- Modelled from the spec: the file name used by the external framework's
`saveAsTextFiles(prefix, [suffix])` at a batch interval, "generated based
on prefix and suffix: \"prefix-TIME_IN_MS[.suffix]\"". -/
def saveAsTextFilesName (pre : String) (suf : Option String) (timeMs : Nat) : String :=
  match suf with
  | some s => pre ++ "-" ++ toString timeMs ++ "." ++ s
  | none => pre ++ "-" ++ toString timeMs

/-- Modelled from the spec: the external framework's
`saveAsTextFiles(prefix, [suffix])` output operation saves the DStream's
contents at each batch interval under the generated file name.  A DStream
is modelled as the list of its batches, each paired with its batch time in
milliseconds. -/
def saveAsTextFilesOp (pre : String) (suf : Option String)
    (stream : List (Nat × List String)) : List Effect :=
  stream.map (fun b => Effect.saveAsTextFile (saveAsTextFilesName pre suf b.1) b.2)

/-- Modelled from the spec: the external framework's `foreachRDD(func)`
output operation "applies a function, func, to each RDD generated from the
stream", and "the function func is executed in the driver process running
the streaming application".  The result records, for each batch of the
stream in order, the node on which `func` runs and its result. -/
def foreachRDDOp {α : Type} (stream : List (List String)) (func : List String → α) :
    List (NodeLoc × α) :=
  stream.map (fun rdd => (NodeLoc.driver, func rdd))

/-- The callback always sets `totalTweets` to its old value plus the batch
count (the count is zero for an empty batch). -/
lemma saveTweetsBody_fst (totalTweets : Int) (rdd : List String) (timeMs : Nat) :
    (saveTweetsBody totalTweets rdd timeMs).1 = totalTweets + rdd.length := by
  by_cases h : rdd.length > 0
  · simp only [saveTweetsBody, if_pos h]
    split <;> rfl
  · have h0 : rdd.length = 0 := by omega
    simp [saveTweetsBody, h, h0]

/-- The callback never decreases `totalTweets`. -/
lemma le_saveTweetsBody_fst (totalTweets : Int) (rdd : List String) (timeMs : Nat) :
    totalTweets ≤ (saveTweetsBody totalTweets rdd timeMs).1 := by
  rw [saveTweetsBody_fst]
  omega

/-- The callback reaches `System.exit(0)` exactly on a non-empty batch
that pushes the cumulative total strictly above 1000. -/
lemma saveTweetsBody_exit_iff (totalTweets : Int) (rdd : List String) (timeMs : Nat) :
    (saveTweetsBody totalTweets rdd timeMs).2.2 = true ↔
      0 < rdd.length ∧ 1000 < totalTweets + rdd.length := by
  by_cases h : rdd.length > 0
  · simp only [saveTweetsBody, if_pos h]
    by_cases h2 : totalTweets + (rdd.length : Int) > 1000
    · simp [h2]
      omega
    · simp [h2]
  · simp [saveTweetsBody, h]

/-- If the callback does not exit and the total was at most 1000 before
the batch, the total is still at most 1000 afterwards. -/
lemma saveTweetsBody_no_exit_le (totalTweets : Int) (rdd : List String) (timeMs : Nat)
    (hex : (saveTweetsBody totalTweets rdd timeMs).2.2 = false)
    (htot : totalTweets ≤ 1000) :
    (saveTweetsBody totalTweets rdd timeMs).1 ≤ 1000 := by
  have hiff := saveTweetsBody_exit_iff totalTweets rdd timeMs
  have hfst := saveTweetsBody_fst totalTweets rdd timeMs
  rw [hfst]
  by_cases h : 0 < rdd.length
  · by_contra hc
    have : (saveTweetsBody totalTweets rdd timeMs).2.2 = true :=
      hiff.mpr ⟨h, by omega⟩
    rw [hex] at this
    exact Bool.false_ne_true this
  · have h0 : rdd.length = 0 := by omega
    omega

/-- The successive `totalTweets` values of a run are non-decreasing. -/
lemma totalsTrace_chain (batches : List (List String × Nat)) (totalTweets : Int) :
    List.Chain' (fun a b => a ≤ b) (totalTweets :: totalsTrace totalTweets batches) := by
  induction batches generalizing totalTweets with
  | nil => simp [totalsTrace]
  | cons b rest ih =>
    obtain ⟨rdd, t⟩ := b
    simp only [totalsTrace]
    refine List.chain'_cons.mpr ⟨le_saveTweetsBody_fst totalTweets rdd t, ?_⟩
    by_cases hex : (saveTweetsBody totalTweets rdd t).2.2
    · simp [hex]
    · simpa [hex] using ih (saveTweetsBody totalTweets rdd t).1

/-- Every `totalTweets` value in a run's trace is at least the starting
total. -/
lemma mem_totalsTrace_le (batches : List (List String × Nat)) (totalTweets x : Int)
    (hx : x ∈ totalsTrace totalTweets batches) : totalTweets ≤ x := by
  induction batches generalizing totalTweets with
  | nil => simp [totalsTrace] at hx
  | cons b rest ih =>
    obtain ⟨rdd, t⟩ := b
    simp only [totalsTrace] at hx
    rcases List.mem_cons.mp hx with h1 | h2
    · rw [h1]
      exact le_saveTweetsBody_fst totalTweets rdd t
    · by_cases hex : (saveTweetsBody totalTweets rdd t).2.2
      · simp [hex] at h2
      · rw [if_neg hex] at h2
        exact le_trans (le_saveTweetsBody_fst totalTweets rdd t)
          (ih (saveTweetsBody totalTweets rdd t).1 h2)

/-- As long as the run has not exited, `totalTweets` stays at most 1000. -/
lemma runBatches_no_exit_le (batches : List (List String × Nat)) (totalTweets : Int)
    (htot : totalTweets ≤ 1000) (hex : (runBatches totalTweets batches).2 = false) :
    (runBatches totalTweets batches).1 ≤ 1000 := by
  induction batches generalizing totalTweets with
  | nil => simpa [runBatches] using htot
  | cons b rest ih =>
    obtain ⟨rdd, t⟩ := b
    by_cases hstep : (saveTweetsBody totalTweets rdd t).2.2
    · simp [runBatches, hstep] at hex
    · have hx : (saveTweetsBody totalTweets rdd t).2.2 = false := by
        simpa using hstep
      have h1 : (saveTweetsBody totalTweets rdd t).1 ≤ 1000 :=
        saveTweetsBody_no_exit_le totalTweets rdd t hx htot
      simp only [runBatches, if_neg hstep] at hex ⊢
      exact ih (saveTweetsBody totalTweets rdd t).1 h1 hex

/-- Claim C1: the notebook contains no executable core: every cell of the
notebook is a markdown cell except exactly one code cell, and that code
cell's source is empty. -/
theorem notebook_one_empty_code_cell :
    outputOpsNotebook.countP Cell.isCode = 1 ∧
    outputOpsNotebook.all (fun c => c.isCode || c.isMarkdown) = true ∧
    outputOpsNotebook.all (fun c => !c.isCode || c.source.isEmpty) = true := by
  decide

/-- Claim C7: the sole code cell of the notebook has never produced
output: there is exactly one code cell, and every code cell of the
notebook has a null execution count and an empty outputs list. -/
theorem code_cell_never_executed :
    outputOpsNotebook.countP Cell.isCode = 1 ∧
    outputOpsNotebook.all
      (fun c => !c.isCode || (c.executionCount.isNone && c.outputs.isEmpty)) = true := by
  decide

set_option maxRecDepth 10000

/-- Claim C3: exactly one cell of the notebook holds a fenced code
fragment (the embedded Scala SaveTweets example), and every cell holding a
fenced code fragment references TwitterUtils.createStream, foreachRDD,
ssc.checkpoint and System.exit. -/
theorem sole_code_fragment_mentions_apis :
    outputOpsNotebook.countP Cell.hasCodeFragment = 1 ∧
    outputOpsNotebook.all
      (fun c => !c.hasCodeFragment ||
        (c.mentions "TwitterUtils.createStream" && c.mentions "foreachRDD" &&
         c.mentions "ssc.checkpoint" && c.mentions "System.exit")) = true := by
  decide

/-- Claim C6: no error handling exists anywhere in the repository: every
code cell's source is empty, and no cell of the notebook (in particular
not the cell holding the SaveTweets example with its per-batch callback)
contains a try, catch, finally or throw construct. -/
theorem no_error_handling_constructs :
    outputOpsNotebook.all (fun c => !c.isCode || c.source.isEmpty) = true ∧
    outputOpsNotebook.all
      (fun c => errorHandlingKeywords.all (fun k => !(c.mentions k))) = true := by
  decide

/-- Claim C2: saveAsTextFiles(prefix, [suffix]) generates, at every batch
interval, a file name of the exact form "prefix-TIME_IN_MS[.suffix]" from
the prefix, the optional suffix and the batch timestamp in milliseconds,
and saves that batch's contents under that name. -/
theorem saveAsTextFiles_batch_file_names (pre suf : String) (timeMs : Nat)
    (stream : List (Nat × List String)) (i : Nat) (h : i < stream.length) :
    saveAsTextFilesName pre (some suf) timeMs = pre ++ "-" ++ toString timeMs ++ "." ++ suf ∧
    saveAsTextFilesName pre none timeMs = pre ++ "-" ++ toString timeMs ∧
    (saveAsTextFilesOp pre (some suf) stream).length = stream.length ∧
    ∃ b, stream[i]? = some b ∧
      (saveAsTextFilesOp pre (some suf) stream)[i]? =
        some (Effect.saveAsTextFile (pre ++ "-" ++ toString b.1 ++ "." ++ suf) b.2) := by
  refine ⟨rfl, rfl, by simp [saveAsTextFilesOp], ?_⟩
  refine ⟨stream[i], List.getElem?_eq_getElem h, ?_⟩
  rw [saveAsTextFilesOp, List.getElem?_map, List.getElem?_eq_getElem h]
  rfl

/-- Concrete instance of claim C2's theorem. -/
theorem saveAsTextFiles_batch_file_names_witness :
    saveAsTextFilesName "part" (some "txt") 5 = "part" ++ "-" ++ toString 5 ++ "." ++ "txt" ∧
    saveAsTextFilesName "part" none 5 = "part" ++ "-" ++ toString 5 ∧
    (saveAsTextFilesOp "part" (some "txt") [(1234, ["a"])]).length =
      ([(1234, ["a"])] : List (Nat × List String)).length ∧
    ∃ b, ([(1234, ["a"])] : List (Nat × List String))[0]? = some b ∧
      (saveAsTextFilesOp "part" (some "txt") [(1234, ["a"])])[0]? =
        some (Effect.saveAsTextFile ("part" ++ "-" ++ toString b.1 ++ "." ++ "txt") b.2) :=
  saveAsTextFiles_batch_file_names "part" "txt" 5 [(1234, ["a"])] 0 (by decide)

/-- Claim C4: pprint() prints, for every batch of data in a DStream,
exactly the first ten elements of that batch, on the driver node running
the streaming application. -/
theorem pprint_prints_first_ten (stream : List (List String)) (i : Nat)
    (h : i < stream.length) :
    (pprintOp stream).length = stream.length ∧
    ∃ batch, stream[i]? = some batch ∧
      (pprintOp stream)[i]? = some (NodeLoc.driver, batch.take 10) ∧
      (batch.take 10).length = min 10 batch.length ∧
      ∀ j, j < 10 → (batch.take 10)[j]? = batch[j]? := by
  refine ⟨by simp [pprintOp], ?_⟩
  refine ⟨stream[i], List.getElem?_eq_getElem h, ?_, ?_, ?_⟩
  · rw [pprintOp, List.getElem?_map, List.getElem?_eq_getElem h]
    rfl
  · simp [List.length_take]
  · intro j hj
    rw [List.getElem?_take, if_pos hj]

/-- Concrete instance of claim C4's theorem. -/
theorem pprint_prints_first_ten_witness :
    (pprintOp [["a", "b"]]).length = ([["a", "b"]] : List (List String)).length ∧
    ∃ batch, ([["a", "b"]] : List (List String))[0]? = some batch ∧
      (pprintOp [["a", "b"]])[0]? = some (NodeLoc.driver, batch.take 10) ∧
      (batch.take 10).length = min 10 batch.length ∧
      ∀ j, j < 10 → (batch.take 10)[j]? = batch[j]? :=
  pprint_prints_first_ten [["a", "b"]] 0 (by decide)

/-- Claim C5: foreachRDD(func) applies the user-supplied function func
once per batch, to the RDD generated from the stream for that batch, and
the invocation runs in the driver process. -/
theorem foreachRDD_invokes_per_batch {α : Type} (stream : List (List String))
    (func : List String → α) (i : Nat) (h : i < stream.length) :
    (foreachRDDOp stream func).length = stream.length ∧
    ∃ rdd, stream[i]? = some rdd ∧
      (foreachRDDOp stream func)[i]? = some (NodeLoc.driver, func rdd) := by
  refine ⟨by simp [foreachRDDOp], ?_⟩
  refine ⟨stream[i], List.getElem?_eq_getElem h, ?_⟩
  rw [foreachRDDOp, List.getElem?_map, List.getElem?_eq_getElem h]
  rfl

/-- Concrete instance of claim C5's theorem. -/
theorem foreachRDD_invokes_per_batch_witness :
    (foreachRDDOp [["a"], ["b", "c"]] List.length).length =
      ([["a"], ["b", "c"]] : List (List String)).length ∧
    ∃ rdd, ([["a"], ["b", "c"]] : List (List String))[1]? = some rdd ∧
      (foreachRDDOp [["a"], ["b", "c"]] List.length)[1]? =
        some (NodeLoc.driver, List.length rdd) :=
  foreachRDD_invokes_per_batch [["a"], ["b", "c"]] List.length 1 (by decide)

/-- Claim C8: on a batch whose RDD has count zero, the SaveTweets
per-batch callback is a no-op: no file is saved, nothing is printed,
System.exit is not reached and totalTweets is unchanged. -/
theorem empty_batch_is_noop (totalTweets : Int) (rdd : List String) (timeMs : Nat)
    (h : rdd.length = 0) :
    saveTweetsBody totalTweets rdd timeMs = (totalTweets, [], false) := by
  have hr : rdd = [] := List.length_eq_zero.mp h
  subst hr
  rfl

/-- Concrete instance of claim C8's theorem. -/
theorem empty_batch_is_noop_witness :
    saveTweetsBody 7 [] 99 = (7, [], false) :=
  empty_batch_is_noop 7 [] 99 rfl

/-- Claim C9: totalTweets is monotonically non-decreasing across any
sequence of callback invocations: each invocation sets it to its old value
plus the batch's non-negative count (so an empty batch leaves it
unchanged), and a run starting from its initial value 0 yields a
non-decreasing trace of totals that never goes below 0. -/
theorem totalTweets_monotone (totalTweets : Int) (rdd : List String) (timeMs : Nat)
    (batches : List (List String × Nat)) :
    (saveTweetsBody totalTweets rdd timeMs).1 = totalTweets + rdd.length ∧
    totalTweets ≤ (saveTweetsBody totalTweets rdd timeMs).1 ∧
    List.Chain' (fun a b => a ≤ b) ((0 : Int) :: totalsTrace 0 batches) ∧
    (totalsTrace 0 batches).all (fun x => decide (0 ≤ x)) = true := by
  refine ⟨saveTweetsBody_fst _ _ _, le_saveTweetsBody_fst _ _ _, totalsTrace_chain _ _, ?_⟩
  apply List.all_eq_true.mpr
  intro x hx
  exact decide_eq_true (mem_totalsTrace_le batches 0 x hx)

/-- Claim C10: the callback reaches System.exit(0) exactly when a
non-empty batch pushes the cumulative totalTweets strictly above 1000 (so
a cumulative count of exactly 1000 never triggers exit); at exit the total
strictly exceeds 1000 yet overshoots it by at most that batch's count; and
while a run from 0 has not exited, the total stays at most 1000. -/
theorem exit_exactly_above_1000 (totalTweets : Int) (rdd : List String) (timeMs : Nat)
    (batches : List (List String × Nat)) (hinv : totalTweets ≤ 1000) :
    ((saveTweetsBody totalTweets rdd timeMs).2.2 = true ↔
      0 < rdd.length ∧ 1000 < totalTweets + rdd.length) ∧
    ((saveTweetsBody totalTweets rdd timeMs).2.2 = true →
      1000 < (saveTweetsBody totalTweets rdd timeMs).1 ∧
      (saveTweetsBody totalTweets rdd timeMs).1 ≤ 1000 + rdd.length) ∧
    ((runBatches 0 batches).2 = false → (runBatches 0 batches).1 ≤ 1000) := by
  refine ⟨saveTweetsBody_exit_iff _ _ _, ?_, ?_⟩
  · intro hex
    have hcond := (saveTweetsBody_exit_iff totalTweets rdd timeMs).mp hex
    rw [saveTweetsBody_fst]
    omega
  · intro hex
    exact runBatches_no_exit_le batches 0 (by omega) hex

/-- Concrete instance of claim C10's theorem. -/
theorem exit_exactly_above_1000_witness :
    ((saveTweetsBody 995 ["a", "b", "c", "d", "e", "f"] 42).2.2 = true ↔
      0 < (["a", "b", "c", "d", "e", "f"] : List String).length ∧
      1000 < 995 + ((["a", "b", "c", "d", "e", "f"] : List String).length : Int)) ∧
    ((saveTweetsBody 995 ["a", "b", "c", "d", "e", "f"] 42).2.2 = true →
      1000 < (saveTweetsBody 995 ["a", "b", "c", "d", "e", "f"] 42).1 ∧
      (saveTweetsBody 995 ["a", "b", "c", "d", "e", "f"] 42).1 ≤
        1000 + ((["a", "b", "c", "d", "e", "f"] : List String).length : Int)) ∧
    ((runBatches 0 [(["a"], 7)]).2 = false → (runBatches 0 [(["a"], 7)]).1 ≤ 1000) :=
  exit_exactly_above_1000 995 ["a", "b", "c", "d", "e", "f"] 42 [(["a"], 7)] (by decide)

end SparkStreamingNotebook
